import Mathlib

/-!
# Verification of the Wearable-6MWT firmware step detector and BLE notifier

Shallow embedding of `src/firmware_wearable_6mwt/src/main.cpp`:

* acceleration magnitudes are IEEE floats; only their comparisons with the two
  fixed thresholds matter, so a magnitude is modelled as either NaN or an exact
  rational value (`FloatVal`), with NaN comparing false against everything,
  exactly as IEEE `<` and `>` do;
* `millis()` timestamps are 32-bit unsigned milliseconds; the firmware's
  `currentTime - lastStepTime` is unsigned subtraction modulo 2^32 (`u32sub`);
* the detector globals `stepCount`, `highPeakDetected`, `lastStepTime`
  (main.cpp lines 14-19) form `DetectorState`; one iteration of the detection
  logic in `loop()` (lines 114-129) is `detectorStep`;
* the BLE-visible globals (`deviceConnected`, the advertising state of the
  stack, the characteristic's stored value) plus the detector form
  `SystemState`; the notification block of `loop()` (lines 131-145) and the
  `MyServerCallbacks` connect/disconnect handlers (lines 33-42) drive it.
-/

/-- An acceleration magnitude as the detector sees it: either NaN or a finite
value, modelled exactly as a rational.  Mirrors the C++ `float magnitude`. -/
inductive FloatVal : Type
  | nan : FloatVal
  | fin (q : ℚ) : FloatVal
deriving DecidableEq, Repr

/-- IEEE greater-than against a finite threshold: false whenever the operand is
NaN, otherwise the ordinary order on the represented values. -/
def FloatVal.fgt : FloatVal → ℚ → Bool
  | .nan, _ => false
  | .fin q, c => decide (c < q)

/-- IEEE less-than against a finite threshold: false whenever the operand is
NaN, otherwise the ordinary order on the represented values. -/
def FloatVal.flt : FloatVal → ℚ → Bool
  | .nan, _ => false
  | .fin q, c => decide (q < c)

/-- `const float ACCEL_THRESHOLD_HIGH = 12.0;` (main.cpp line 15). -/
def ACCEL_THRESHOLD_HIGH : ℚ := 12

/-- `const float ACCEL_THRESHOLD_LOW = 9.5;` (main.cpp line 16), written as
the exact rational 19/2. -/
def ACCEL_THRESHOLD_LOW : ℚ := mkRat 19 2

/-- `const int DEBOUNCE_TIME_MS = 350;` (main.cpp line 19). -/
def DEBOUNCE_TIME_MS : Nat := 350

/-- Unsigned 32-bit subtraction `a - b` as performed on `unsigned long`
(32 bits on the target) in `currentTime - lastStepTime`. -/
def u32sub (a b : Nat) : Nat := (a % 2 ^ 32 + 2 ^ 32 - b % 2 ^ 32) % 2 ^ 32

/-- The step-detector globals of main.cpp: `int stepCount = 0;` (line 14),
`bool highPeakDetected = false;` (line 17), `unsigned long lastStepTime = 0;`
(line 18).  `stepCount` only ever increments, so it is modelled as a natural
number; the 32-bit wrap appears in the wire encoding where the code shifts. -/
structure DetectorState : Type where
  stepCount : Nat
  highPeakDetected : Bool
  lastStepTime : Nat
deriving DecidableEq, Repr

/-- The detector globals at boot (main.cpp lines 14-18). -/
def initState : DetectorState :=
  { stepCount := 0, highPeakDetected := false, lastStepTime := 0 }

/-- The arming phase of one `loop()` iteration (main.cpp lines 114-118):
`if (magnitude > ACCEL_THRESHOLD_HIGH && !highPeakDetected)` and, inside,
`if (currentTime - lastStepTime > DEBOUNCE_TIME_MS) highPeakDetected = true`. -/
def armPhase (s : DetectorState) (magnitude : FloatVal) (currentTime : Nat) :
    DetectorState :=
  if magnitude.fgt ACCEL_THRESHOLD_HIGH && !s.highPeakDetected then
    if u32sub currentTime s.lastStepTime > DEBOUNCE_TIME_MS then
      { s with highPeakDetected := true }
    else s
  else s

/-- One iteration of the step-detection logic of `loop()` (main.cpp lines
114-129), fed one magnitude sample and the current `millis()` value: the
arming phase followed by the confirmation phase
`if (highPeakDetected && magnitude < ACCEL_THRESHOLD_LOW)` (line 120), which
increments `stepCount`, records `lastStepTime = currentTime` and clears the
armed flag.  Returns the updated globals and whether this iteration confirmed
a step (the code prints "¡PASO!" and runs the notification block exactly
then). -/
def detectorStep (s : DetectorState) (magnitude : FloatVal) (currentTime : Nat) :
    DetectorState × Bool :=
  if (armPhase s magnitude currentTime).highPeakDetected &&
      magnitude.flt ACCEL_THRESHOLD_LOW then
    ({ stepCount := (armPhase s magnitude currentTime).stepCount + 1
       highPeakDetected := false
       lastStepTime := currentTime }, true)
  else
    (armPhase s magnitude currentTime, false)

/-- Run the detector over a list of `(magnitude, currentTime)` samples,
collecting the per-sample step-confirmation flags in order. -/
def runDetTrace (s : DetectorState) : List (FloatVal × Nat) → DetectorState × List Bool
  | [] => (s, [])
  | (m, t) :: rest =>
    let r := detectorStep s m t
    let r2 := runDetTrace r.1 rest
    (r2.1, r.2 :: r2.2)

/-- `data_to_send` (main.cpp lines 136-140): the 4-byte little-endian encoding
`(stepCount >> 8*k) & 0xFF` of the step count, wrapping at 2^32. -/
def encodeLE (c : Nat) : List Nat :=
  [c % 256, c / 2 ^ 8 % 256, c / 2 ^ 16 % 256, c / 2 ^ 24 % 256]

/-- Observer-side decoding of the 4-byte little-endian payload (spec section 6,
"Wire payload"): byte 0 is least significant. -/
def decodeLE : List Nat → Nat
  | [b0, b1, b2, b3] => b0 + 2 ^ 8 * b1 + 2 ^ 16 * b2 + 2 ^ 24 * b3
  | _ => 0

/-- Commands the core issues to the BLE transport collaborator. -/
inductive TransportCmd : Type
  | advStart : TransportCmd
deriving DecidableEq, Repr

/-- The whole BLE-observable state: the detector globals, `bool
deviceConnected` (main.cpp line 24), whether the stack is currently
advertising, the byte value stored in the steps characteristic (`none` while
`setValue` has never run), and the list of payloads delivered by `notify()`. -/
structure SystemState : Type where
  det : DetectorState
  deviceConnected : Bool
  advertising : Bool
  charValue : Option (List Nat)
  notified : List (List Nat)
deriving DecidableEq, Repr

/-- State right after `setup()` (main.cpp lines 45-102): detector globals at
their initial values, nobody connected, advertising started, and the
characteristic value never written (setup creates the characteristic but calls
no `setValue`). -/
def initSys : SystemState :=
  { det := initState
    deviceConnected := false
    advertising := true
    charValue := none
    notified := [] }

/-- `MyServerCallbacks::onConnect` (main.cpp lines 34-37): sets
`deviceConnected = true` and nothing else. -/
def onConnect (s : SystemState) : SystemState :=
  { s with deviceConnected := true }

/-- `MyServerCallbacks::onDisconnect` (main.cpp lines 39-42): sets
`deviceConnected = false` and calls `pServer->getAdvertising()->start()`.
The issued transport commands are returned alongside the new state; `start()`
on the stack leaves it advertising (idempotently so when already active, per
the transport collaborator contract of spec section 6). -/
def onDisconnect (s : SystemState) : SystemState × List TransportCmd :=
  ({ s with deviceConnected := false, advertising := true },
   [TransportCmd.advStart])

/-- Events driving the system: one sampling-loop iteration with a magnitude
and a `millis()` value, or a BLE connect/disconnect callback. -/
inductive Ev : Type
  | sample (m : FloatVal) (t : Nat) : Ev
  | connect : Ev
  | disconnect : Ev
deriving DecidableEq, Repr

/-- One system transition: a `sample` event runs the detector logic and, when
a step is confirmed while `deviceConnected` holds, executes the notification
block of `loop()` (main.cpp lines 133-144): build `data_to_send`, `setValue`,
`notify()`.  When no observer is connected the characteristic value is left
untouched (the `setValue` call sits inside `if (deviceConnected)`). -/
def sysStep (s : SystemState) : Ev → SystemState
  | .sample m t =>
    let r := detectorStep s.det m t
    if r.2 && s.deviceConnected then
      { s with
          det := r.1
          charValue := some (encodeLE r.1.stepCount)
          notified := s.notified ++ [encodeLE r.1.stepCount] }
    else
      { s with det := r.1 }
  | .connect => onConnect s
  | .disconnect => (onDisconnect s).1

/-- Run the system over a list of events. -/
def runSys (s : SystemState) : List Ev → SystemState
  | [] => s
  | e :: rest => runSys (sysStep s e) rest


/-! ## Basic transition lemmas -/

/-- Above the high threshold implies not below the low threshold: the two
cutoffs satisfy 9.5 < 12, so no sample can take both branch guards. -/
lemma FloatVal.fgt_high_flt_low (m : FloatVal)
    (h : m.fgt ACCEL_THRESHOLD_HIGH = true) :
    m.flt ACCEL_THRESHOLD_LOW = false := by
  cases m with
  | nan => rfl
  | fin q =>
    simp only [FloatVal.fgt, decide_eq_true_eq] at h
    simp only [FloatVal.flt, decide_eq_false_iff_not, not_lt]
    have hlow : ACCEL_THRESHOLD_LOW = 19 / 2 := by norm_num [ACCEL_THRESHOLD_LOW]
    have hhigh : ACCEL_THRESHOLD_HIGH = 12 := rfl
    rw [hlow]
    rw [hhigh] at h
    linarith

/-- The arming phase never touches the step counter. -/
lemma armPhase_stepCount (s : DetectorState) (m : FloatVal) (t : Nat) :
    (armPhase s m t).stepCount = s.stepCount := by
  unfold armPhase
  split_ifs <;> rfl

/-- The arming phase never touches the last-step time. -/
lemma armPhase_lastStepTime (s : DetectorState) (m : FloatVal) (t : Nat) :
    (armPhase s m t).lastStepTime = s.lastStepTime := by
  unfold armPhase
  split_ifs <;> rfl

/-- While armed, the arming phase is a no-op (`!highPeakDetected` fails). -/
lemma armPhase_armed (s : DetectorState) (m : FloatVal) (t : Nat)
    (harmed : s.highPeakDetected = true) :
    armPhase s m t = s := by
  unfold armPhase
  simp [harmed]

/-- A sample that does not exceed the high threshold never arms. -/
lemma armPhase_low (s : DetectorState) (m : FloatVal) (t : Nat)
    (hm : m.fgt ACCEL_THRESHOLD_HIGH = false) :
    armPhase s m t = s := by
  unfold armPhase
  simp [hm]

/-- Inside the debounce window the arming phase is a no-op. -/
lemma armPhase_debounced (s : DetectorState) (m : FloatVal) (t : Nat)
    (hdb : ¬ u32sub t s.lastStepTime > DEBOUNCE_TIME_MS) :
    armPhase s m t = s := by
  unfold armPhase
  split_ifs <;> simp_all

/-- While unarmed, an above-threshold sample outside the debounce window
arms the detector. -/
lemma armPhase_arms (s : DetectorState) (m : FloatVal) (t : Nat)
    (hidle : s.highPeakDetected = false)
    (hm : m.fgt ACCEL_THRESHOLD_HIGH = true)
    (hdb : u32sub t s.lastStepTime > DEBOUNCE_TIME_MS) :
    armPhase s m t = { s with highPeakDetected := true } := by
  unfold armPhase
  simp [hidle, hm, hdb]

/-- While unarmed, a sample that does not exceed the high threshold changes
nothing at all. -/
lemma detectorStep_idle_low (s : DetectorState) (m : FloatVal) (t : Nat)
    (hidle : s.highPeakDetected = false)
    (hm : m.fgt ACCEL_THRESHOLD_HIGH = false) :
    detectorStep s m t = (s, false) := by
  unfold detectorStep
  rw [armPhase_low s m t hm]
  simp [hidle]

/-- While armed, a sample that does not drop below the low threshold changes
nothing at all: the arming branch is disabled by `!highPeakDetected` and the
confirmation branch by the low-threshold guard. -/
lemma detectorStep_armed_stay (s : DetectorState) (m : FloatVal) (t : Nat)
    (harmed : s.highPeakDetected = true)
    (hm : m.flt ACCEL_THRESHOLD_LOW = false) :
    detectorStep s m t = (s, false) := by
  unfold detectorStep
  rw [armPhase_armed s m t harmed]
  simp [hm]

/-- While armed, a sample below the low threshold confirms exactly one step:
increment, record the time, disarm, and emit. -/
lemma detectorStep_armed_confirm (s : DetectorState) (m : FloatVal) (t : Nat)
    (harmed : s.highPeakDetected = true)
    (hm : m.flt ACCEL_THRESHOLD_LOW = true) :
    detectorStep s m t =
      ({ stepCount := s.stepCount + 1
         highPeakDetected := false
         lastStepTime := t }, true) := by
  unfold detectorStep
  rw [armPhase_armed s m t harmed]
  simp [harmed, hm]

/-- Each iteration either leaves `stepCount` unchanged or, exactly when it
confirms a step, increments it by one. -/
lemma detectorStep_count (s : DetectorState) (m : FloatVal) (t : Nat) :
    ((detectorStep s m t).2 = false ∧
      (detectorStep s m t).1.stepCount = s.stepCount) ∨
    ((detectorStep s m t).2 = true ∧
      (detectorStep s m t).1.stepCount = s.stepCount + 1) := by
  unfold detectorStep
  split_ifs with hg
  · right
    exact ⟨rfl, by simp [armPhase_stepCount]⟩
  · left
    exact ⟨rfl, armPhase_stepCount s m t⟩

/-! ## C1: the arming condition at Idle -/

/--
C1 counterexample.  The claim states that at `Idle` the detector arms when
`magnitude > highThreshold` and no step has ever been recorded, "regardless of
how little time has elapsed", because `lastStepTimestamp` is a sentinel
meaning "no step yet".  In the code `lastStepTime` is initialized to the
ordinary value 0, not a distinct sentinel, so at boot state (stepCount 0, no
step ever recorded) a magnitude of 13 > 12 at `millis() = 100` does NOT arm:
the guard `100 - 0 > 350` fails.
-/
theorem c1_counterexample :
    (FloatVal.fin 13).fgt ACCEL_THRESHOLD_HIGH = true ∧
    initState.highPeakDetected = false ∧
    initState.stepCount = 0 ∧
    (detectorStep initState (FloatVal.fin 13) 100).1.highPeakDetected = false := by
  refine ⟨by decide, rfl, rfl, by decide⟩

/--
C1 amended: at `Idle`, the detector transitions to `PeakArmed` if and only if
`magnitude > highThreshold` and the unsigned 32-bit difference
`now - lastStepTime` exceeds `debouncePeriod`, where `lastStepTime` starts at
the ordinary value 0 (there is no "no step yet" sentinel, so an
above-threshold sample within the first 350 ms of the `millis()` timebase
does not arm).
-/
theorem c1_arming_iff (s : DetectorState) (m : FloatVal) (t : Nat)
    (hidle : s.highPeakDetected = false) :
    (detectorStep s m t).1.highPeakDetected = true ↔
      (m.fgt ACCEL_THRESHOLD_HIGH = true ∧
        u32sub t s.lastStepTime > DEBOUNCE_TIME_MS) := by
  rcases hgt : m.fgt ACCEL_THRESHOLD_HIGH with _ | _
  · rw [detectorStep_idle_low s m t hidle hgt]
    simp [hidle, hgt]
  · by_cases hdb : u32sub t s.lastStepTime > DEBOUNCE_TIME_MS
    · have hlow := FloatVal.fgt_high_flt_low m hgt
      unfold detectorStep
      rw [armPhase_arms s m t hidle hgt hdb]
      simp [hlow, hdb]
    · have harm := armPhase_debounced s m t hdb
      unfold detectorStep
      rw [harm]
      simp [hidle, hdb]

/-- C1 witness: the amended arming rule applied at boot state with magnitude
13 at `millis() = 1000`, where both sides of the equivalence hold. -/
theorem c1_arming_iff_witness :
    (detectorStep initState (FloatVal.fin 13) 1000).1.highPeakDetected = true ↔
      ((FloatVal.fin 13).fgt ACCEL_THRESHOLD_HIGH = true ∧
        u32sub 1000 initState.lastStepTime > DEBOUNCE_TIME_MS) :=
  c1_arming_iff initState (FloatVal.fin 13) 1000 rfl

/-! ## C2: confirmation at PeakArmed -/

/--
C2: whenever the detector is `PeakArmed` and the magnitude drops below the
low threshold, exactly one step is confirmed: `stepCount` is incremented by
one, `lastStepTime` is set to `now`, the state returns to `Idle`, and a step
event is emitted.  The statement quantifies over every `now`, so no debounce
or refractory condition is checked at confirmation, even within the debounce
window of the previous confirm.
-/
theorem c2_confirm (s : DetectorState) (m : FloatVal) (t : Nat)
    (harmed : s.highPeakDetected = true)
    (hm : m.flt ACCEL_THRESHOLD_LOW = true) :
    detectorStep s m t =
      ({ stepCount := s.stepCount + 1
         highPeakDetected := false
         lastStepTime := t }, true) :=
  detectorStep_armed_confirm s m t harmed hm

/-- C2 witness: an armed detector whose previous step was confirmed at
`millis() = 100` sees magnitude 8 at `millis() = 150`, only 50 ms later
(well inside the 350 ms debounce window), and still confirms the step. -/
theorem c2_confirm_witness :
    u32sub 150 100 ≤ DEBOUNCE_TIME_MS ∧
    detectorStep
        { stepCount := 1, highPeakDetected := true, lastStepTime := 100 }
        (FloatVal.fin 8) 150 =
      ({ stepCount := 2, highPeakDetected := false, lastStepTime := 150 }, true) :=
  ⟨by decide,
   c2_confirm
     { stepCount := 1, highPeakDetected := true, lastStepTime := 100 }
     (FloatVal.fin 8) 150 rfl (by decide)⟩

/-! ## C3: the step counter is monotone -/

/-- A sample event updates the detector part of the system state exactly as
the detector logic dictates, whether or not anybody is connected. -/
lemma sysStep_sample_det (s : SystemState) (m : FloatVal) (t : Nat) :
    (sysStep s (Ev.sample m t)).det = (detectorStep s.det m t).1 := by
  simp only [sysStep]
  split <;> rfl

/--
C3: the step counter starts at 0, and over every possible event sequence
(samples, connects, disconnects) it is monotonically non-decreasing; the only
transition that changes it is the detector's confirm transition, which adds
exactly one.
-/
theorem c3_stepCount_monotone :
    initSys.det.stepCount = 0 ∧
    (∀ (s : SystemState) (e : Ev),
      (sysStep s e).det.stepCount = s.det.stepCount ∨
      ((sysStep s e).det.stepCount = s.det.stepCount + 1 ∧
        ∃ m t, e = Ev.sample m t ∧ (detectorStep s.det m t).2 = true)) ∧
    (∀ (s : SystemState) (evs : List Ev),
      s.det.stepCount ≤ (runSys s evs).det.stepCount) := by
  have hstep : ∀ (s : SystemState) (e : Ev),
      (sysStep s e).det.stepCount = s.det.stepCount ∨
      ((sysStep s e).det.stepCount = s.det.stepCount + 1 ∧
        ∃ m t, e = Ev.sample m t ∧ (detectorStep s.det m t).2 = true) := by
    intro s e
    cases e with
    | sample m t =>
      rw [sysStep_sample_det]
      rcases detectorStep_count s.det m t with ⟨_, hc⟩ | ⟨hf, hc⟩
      · exact Or.inl hc
      · exact Or.inr ⟨hc, m, t, rfl, hf⟩
    | connect => exact Or.inl rfl
    | disconnect => exact Or.inl rfl
  refine ⟨rfl, hstep, ?_⟩
  intro s evs
  induction evs generalizing s with
  | nil => exact Nat.le_refl _
  | cons e rest ih =>
    have h1 : s.det.stepCount ≤ (sysStep s e).det.stepCount := by
      rcases hstep s e with h | ⟨h, _⟩ <;> omega
    exact Nat.le_trans h1 (ih (sysStep s e))

/-! ## C4: no steps without a high crossing -/

/-- Below the high threshold implies the high-threshold guard is false. -/
lemma FloatVal.flt_high_fgt_high (m : FloatVal)
    (h : m.flt ACCEL_THRESHOLD_HIGH = true) :
    m.fgt ACCEL_THRESHOLD_HIGH = false := by
  cases m with
  | nan => rfl
  | fin q =>
    simp only [FloatVal.flt, decide_eq_true_eq] at h
    simp only [FloatVal.fgt, decide_eq_false_iff_not, not_lt]
    exact le_of_lt h

/-- From an unarmed state, a run of samples that never exceed the high
threshold changes nothing: the detector stays unarmed, the counter frozen,
and no step event is emitted. -/
lemma runDetTrace_idle_below (s : DetectorState)
    (hidle : s.highPeakDetected = false) (seq : List (FloatVal × Nat))
    (hseq : ∀ p ∈ seq, p.1.flt ACCEL_THRESHOLD_HIGH = true) :
    runDetTrace s seq = (s, seq.map fun _ => false) := by
  induction seq with
  | nil => rfl
  | cons p rest ih =>
    obtain ⟨m, t⟩ := p
    have h1 : m.fgt ACCEL_THRESHOLD_HIGH = false :=
      FloatVal.flt_high_fgt_high m (hseq (m, t) (List.mem_cons_self _ _))
    have h2 : ∀ p ∈ rest, p.1.flt ACCEL_THRESHOLD_HIGH = true :=
      fun p hp => hseq p (List.mem_cons_of_mem _ hp)
    simp only [runDetTrace, detectorStep_idle_low s m t hidle h1, ih h2,
      List.map_cons]

/--
C4: for every (arbitrarily long) sequence of samples whose magnitudes all
stay below the high threshold, the step counter stays 0 and no step event is
ever emitted: no reachable state confirms a step without a prior
above-high-threshold arming.
-/
theorem c4_below_high_no_steps (seq : List (FloatVal × Nat))
    (hseq : ∀ p ∈ seq, p.1.flt ACCEL_THRESHOLD_HIGH = true) :
    (runDetTrace initState seq).1.stepCount = 0 ∧
    ∀ b ∈ (runDetTrace initState seq).2, b = false := by
  rw [runDetTrace_idle_below initState rfl seq hseq]
  constructor
  · rfl
  · intro b hb
    rcases List.mem_map.mp hb with ⟨p, _, hp⟩
    exact hp.symm

/-- C4 witness: three sub-threshold samples spread over a second leave the
counter at 0 with no emissions. -/
theorem c4_below_high_no_steps_witness :
    (runDetTrace initState
        [(FloatVal.fin 5, 100), (FloatVal.fin 11, 500),
         (FloatVal.fin 0, 900)]).1.stepCount = 0 ∧
    ∀ b ∈ (runDetTrace initState
        [(FloatVal.fin 5, 100), (FloatVal.fin 11, 500),
         (FloatVal.fin 0, 900)]).2, b = false :=
  c4_below_high_no_steps
    [(FloatVal.fin 5, 100), (FloatVal.fin 11, 500), (FloatVal.fin 0, 900)]
    (by decide)

/-! ## C5: PeakArmed is a latch, not a counter -/

/-- Running the detector over a concatenation runs the two halves in
sequence and concatenates the emission traces. -/
lemma runDetTrace_append (s : DetectorState) (l1 l2 : List (FloatVal × Nat)) :
    runDetTrace s (l1 ++ l2) =
      ((runDetTrace (runDetTrace s l1).1 l2).1,
        (runDetTrace s l1).2 ++ (runDetTrace (runDetTrace s l1).1 l2).2) := by
  induction l1 generalizing s with
  | nil => simp [runDetTrace]
  | cons p rest ih =>
    obtain ⟨m, t⟩ := p
    simp [runDetTrace, ih]

/-- From an armed state, a run of samples none of which drops below the low
threshold changes nothing: further high crossings are absorbed by the
`!highPeakDetected` guard and nothing is emitted. -/
lemma runDetTrace_armed_stay (s : DetectorState)
    (harmed : s.highPeakDetected = true) (seq : List (FloatVal × Nat))
    (hseq : ∀ p ∈ seq, p.1.flt ACCEL_THRESHOLD_LOW = false) :
    runDetTrace s seq = (s, seq.map fun _ => false) := by
  induction seq with
  | nil => rfl
  | cons p rest ih =>
    obtain ⟨m, t⟩ := p
    have h1 : m.flt ACCEL_THRESHOLD_LOW = false :=
      hseq (m, t) (List.mem_cons_self _ _)
    have h2 : ∀ p ∈ rest, p.1.flt ACCEL_THRESHOLD_LOW = false :=
      fun p hp => hseq p (List.mem_cons_of_mem _ hp)
    simp only [runDetTrace, detectorStep_armed_stay s m t harmed h1, ih h2,
      List.map_cons]

/--
C5: the armed state is a latch.  Starting already `PeakArmed`, any number of
further samples that never drop below the low threshold (in particular,
repeated crossings above the high threshold) leave the single pending arm in
place and emit nothing; when the magnitude finally drops below the low
threshold, exactly one step is confirmed.
-/
theorem c5_latch (s : DetectorState) (seq : List (FloatVal × Nat))
    (m : FloatVal) (t : Nat)
    (harmed : s.highPeakDetected = true)
    (hseq : ∀ p ∈ seq, p.1.flt ACCEL_THRESHOLD_LOW = false)
    (hm : m.flt ACCEL_THRESHOLD_LOW = true) :
    runDetTrace s (seq ++ [(m, t)]) =
      ({ stepCount := s.stepCount + 1
         highPeakDetected := false
         lastStepTime := t },
        (seq.map fun _ => false) ++ [true]) := by
  rw [runDetTrace_append, runDetTrace_armed_stay s harmed seq hseq]
  simp [runDetTrace, detectorStep_armed_confirm s m t harmed hm]

/-- C5 witness: two further high crossings while already armed, then one
drop below the low threshold: a single step, emitted at the drop. -/
theorem c5_latch_witness :
    runDetTrace
        { stepCount := 0, highPeakDetected := true, lastStepTime := 0 }
        ([(FloatVal.fin 13, 50), (FloatVal.fin 13, 100)] ++
          [(FloatVal.fin 8, 150)]) =
      ({ stepCount := 1, highPeakDetected := false, lastStepTime := 150 },
        [false, false, true]) :=
  c5_latch
    { stepCount := 0, highPeakDetected := true, lastStepTime := 0 }
    [(FloatVal.fin 13, 50), (FloatVal.fin 13, 100)]
    (FloatVal.fin 8) 150 rfl (by decide) (by decide)

/-! ## C6: the notification payload -/

/--
C6: the payload is the 4-byte little-endian unsigned encoding of the step
count, wrapping modulo 2^32: encoding count 1 yields exactly
`[0x01, 0x00, 0x00, 0x00]`, and decoding the encoded bytes little-endian
recovers the count modulo 2^32 for every count value.
-/
theorem c6_payload_roundtrip :
    encodeLE 1 = [1, 0, 0, 0] ∧
    ∀ c : Nat, decodeLE (encodeLE c) = c % 2 ^ 32 := by
  refine ⟨rfl, fun c => ?_⟩
  simp only [encodeLE, decodeLE]
  omega

/-! ## C7: the seven-sample scenario -/

/-- The spec section 8 scenario: magnitudes `[5,13,13,8,5,13,8]` sampled
50 ms apart, here anchored at `millis() = 1000` so that the very first
arming is not additionally blocked by the boot value `lastStepTime = 0`. -/
def c7seq : List (FloatVal × Nat) :=
  [(FloatVal.fin 5, 1000), (FloatVal.fin 13, 1050), (FloatVal.fin 13, 1100),
   (FloatVal.fin 8, 1150), (FloatVal.fin 5, 1200), (FloatVal.fin 13, 1250),
   (FloatVal.fin 8, 1300)]

/--
C7 counterexample.  The claim says the scenario produces exactly 2 step
events, at the 4th and 7th samples.  Running the code on the sequence gives
exactly one step: the 6th sample (magnitude 13 at 1250 ms) comes only 100 ms
after the step recorded at the 4th sample (1150 ms), inside the 350 ms
debounce window, so it does not re-arm, and the 7th sample confirms nothing.
-/
theorem c7_counterexample :
    ¬ (runDetTrace initState c7seq).1.stepCount = 2 := by
  decide

/--
C7 amended: the sequence `[5,13,13,8,5,13,8]` sampled 50 ms apart with the
default parameters and no prior step produces exactly 1 step event, confirmed
at the 4th sample; the rising edge at the 6th sample falls inside the
debounce window of the step just recorded (100 ms elapsed, not more than
350 ms), so no second arm and no second step occur.
-/
theorem c7_one_step :
    (runDetTrace initState c7seq).1.stepCount = 1 ∧
    (runDetTrace initState c7seq).2 =
      [false, false, false, true, false, false, false] := by
  constructor <;> decide

/-! ## C8: disconnect restarts advertising exactly once, idempotently -/

/--
C8: every invocation of the disconnect handler issues exactly one advertising
restart command to the transport (never skipped, never duplicated), marks the
device disconnected, and leaves the stack advertising; invoking the handler
twice in a row reaches exactly the state of the first call, so the second
call is observably a no-op.
-/
theorem c8_disconnect_once_idempotent :
    ∀ s : SystemState,
      (onDisconnect s).2 = [TransportCmd.advStart] ∧
      (onDisconnect s).1.deviceConnected = false ∧
      (onDisconnect s).1.advertising = true ∧
      (onDisconnect (onDisconnect s).1).1 = (onDisconnect s).1 :=
  fun _ => ⟨rfl, rfl, rfl, rfl⟩

/-! ## C9: steps confirmed while disconnected are not readable on connect -/

/-- Three complete arm/confirm gait cycles, all while no observer is
connected, followed by the observer connecting. -/
def c9evs : List Ev :=
  [Ev.sample (FloatVal.fin 13) 1000, Ev.sample (FloatVal.fin 8) 1050,
   Ev.sample (FloatVal.fin 13) 1500, Ev.sample (FloatVal.fin 8) 1550,
   Ev.sample (FloatVal.fin 13) 2000, Ev.sample (FloatVal.fin 8) 2050,
   Ev.connect]

/--
C9: after three steps confirmed while disconnected and a subsequent connect,
the step counter is 3 and no notification was ever delivered (the first half
of the claim holds), but the characteristic value was never written — the
`setValue` call sits inside `if (deviceConnected)` and `setup()` stores no
initial value — so the newly connected observer's direct read does not
return 3, contradicting the claim's second half.
-/
theorem c9_missed_steps_unreadable :
    (runSys initSys c9evs).det.stepCount = 3 ∧
    (runSys initSys c9evs).notified = [] ∧
    (runSys initSys c9evs).deviceConnected = true ∧
    (runSys initSys c9evs).charValue = none ∧
    ¬ (runSys initSys c9evs).charValue = some (encodeLE 3) := by
  refine ⟨by decide, by decide, by decide, by decide, by decide⟩

/-! ## C10: NaN magnitudes leave everything unchanged -/

/--
C10: feeding the sampling-loop logic a NaN magnitude leaves the entire
observable state unchanged and emits nothing: both threshold comparisons
`magnitude > 12.0` and `magnitude < 9.5` are false for NaN, so neither the
arming branch, the confirmation branch, nor the notification block runs;
`stepCount`, `highPeakDetected` and `lastStepTime` keep their prior values
and no notification is sent.
-/
theorem c10_nan_frame :
    ∀ (s : SystemState) (t : Nat), sysStep s (Ev.sample FloatVal.nan t) = s := by
  intro s t
  have hd : detectorStep s.det FloatVal.nan t = (s.det, false) := by
    rcases h : s.det.highPeakDetected with _ | _
    · exact detectorStep_idle_low s.det FloatVal.nan t h rfl
    · exact detectorStep_armed_stay s.det FloatVal.nan t h rfl
  simp only [sysStep, hd]
  simp
